import Mathlib

/-!
Verification of the YNAB API client (src/ynab_api.py).

The Python module is a single class YNABAPI whose constructor loads
credentials, resolves a budget id by name, fetches the budget's category
groups, removes hidden categories and drops now-empty category groups.
We shallowly embed its data and operations: JSON values are an inductive
type, Python exceptions are an explicit error type, and each method
becomes a pure function over the decoded inputs it consumes.  The HTTP
transport is modelled by an oracle value describing the outcome of the
single request a primitive issues.
-/

/-- A single-quote character as a string (Python quotes keys and names with it). -/
def squote : String := "\x27"

/-- JSON values, as Python json.load / response.json() produce them
(numbers restricted to integers; floats do not occur in this client). -/
inductive Json where
  | null
  | bool (b : Bool)
  | num (n : Int)
  | str (s : String)
  | arr (xs : List Json)
  | obj (fields : List (String × Json))
deriving Repr

/-- Python exceptions that can escape the client's methods.  YNABAPIError is
the module's own exception class; the others are built-in exceptions the
code can raise but does not catch at the point of interest. -/
inductive PyError where
  | ynabAPIError (msg : String)
  | jsonDecodeError
  | keyError (k : String)
  | typeError
deriving Repr, DecidableEq

/-- Whether an exception is the module's uniform client-error kind. -/
def PyError.isYNABAPIError : PyError → Bool
  | .ynabAPIError _ => true
  | _ => false

/-- Python subscripting v[k] with a string key: a KeyError on a dict without
the key, a TypeError on any non-dict value. -/
def Json.getItem : Json → String → Except PyError Json
  | .obj fields, k =>
      match List.lookup k fields with
      | some v => Except.ok v
      | none => Except.error (PyError.keyError k)
  | _, _ => Except.error PyError.typeError

mutual

/-- Python repr() of a JSON value (string escaping inside reprs is not
modelled; no claim depends on it). -/
def Json.pyRepr : Json → String
  | .null => "None"
  | .bool true => "True"
  | .bool false => "False"
  | .num n => toString n
  | .str s => squote ++ s ++ squote
  | .arr xs => "[" ++ Json.pyReprList xs ++ "]"
  | .obj fs => "\x7b" ++ Json.pyReprFields fs ++ "\x7d"

/-- Comma-separated reprs of the elements of a JSON array. -/
def Json.pyReprList : List Json → String
  | [] => ""
  | [x] => Json.pyRepr x
  | x :: y :: xs => Json.pyRepr x ++ ", " ++ Json.pyReprList (y :: xs)

/-- Comma-separated key: value reprs of the fields of a JSON object. -/
def Json.pyReprFields : List (String × Json) → String
  | [] => ""
  | [(k, v)] => squote ++ k ++ squote ++ ": " ++ Json.pyRepr v
  | (k, v) :: f :: fs =>
      squote ++ k ++ squote ++ ": " ++ Json.pyRepr v ++ ", " ++ Json.pyReprFields (f :: fs)

end

/-- Python str() of a JSON value, as used by str.format: identical to repr
except that a top-level string is taken verbatim. -/
def Json.pyStr : Json → String
  | .str s => s
  | j => j.pyRepr

/-- The outcome requests.get / requests.patch hand back when the transport
itself succeeds: the HTTP status code, and the response body as parsed by
result.json() (none when the body is not valid JSON, in which case
result.json() raises json.JSONDecodeError). -/
structure Response where
  status_code : Nat
  body : Option Json
deriving Repr

/-- requests' Response.ok property: true iff the status code is below 400. -/
def Response.ok (r : Response) : Bool := r.status_code < 400

/-- YNABAPI.__check_api_result: parse the body first (raising
json.JSONDecodeError when it is not JSON), then, if the response is not ok,
raise YNABAPIError with the formatted status and error name/detail (the
subscript chain data[error][name] itself raising KeyError/TypeError when
the body lacks that shape); otherwise return the parsed body. -/
def check_api_result (result : Response) : Except PyError Json :=
  match result.body with
  | none => Except.error PyError.jsonDecodeError
  | some data =>
      if result.ok then
        Except.ok data
      else
        match data.getItem "error" with
        | Except.error e => Except.error e
        | Except.ok err =>
            match err.getItem "name" with
            | Except.error e => Except.error e
            | Except.ok ename =>
                match err.getItem "detail" with
                | Except.error e => Except.error e
                | Except.ok edetail =>
                    Except.error (PyError.ynabAPIError
                      ("Request Error: " ++ toString result.status_code ++ " "
                        ++ ename.pyStr ++ ":" ++ edetail.pyStr))

/-- The fixed API base URL. -/
def API_PREFIX : String := "https://api.youneedabudget.com/v1"

/-- What the single network request attempted by a primitive does: either the
transport raises requests.exceptions.RequestException (carrying a message),
or it yields a Response. -/
inductive TransportOutcome where
  | exn (msg : String)
  | response (r : Response)
deriving Repr

/-- YNABAPI.api_get: issue one GET request to API_PREFIX + url; a transport
exception is wrapped in YNABAPIError, otherwise the response goes through
check_api_result.  The first component records the URLs of the requests
attempted (always exactly the one). -/
def api_get (url : String) (transport : TransportOutcome) :
    List String × Except PyError Json :=
  match transport with
  | .exn msg =>
      ([ API_PREFIX ++ url], Except.error (PyError.ynabAPIError ("YNAB API error:\n" ++ msg)))
  | .response r => ([ API_PREFIX ++ url], check_api_result r)

/-- YNABAPI.api_patch: issue one PATCH request with a JSON payload; identical
error handling to api_get.  The first component records the attempted
requests as (url, payload) pairs (always exactly the one). -/
def api_patch (url : String) (data : Json) (transport : TransportOutcome) :
    List (String × Json) × Except PyError Json :=
  match transport with
  | .exn msg =>
      ([( API_PREFIX ++ url, data)],
        Except.error (PyError.ynabAPIError ("YNAB API error:\n" ++ msg)))
  | .response r => ([( API_PREFIX ++ url, data)], check_api_result r)

/-- The outcome of opening and JSON-decoding the credentials file:
open() raised IOError (with a message), json.load raised JSONDecodeError,
or a JSON value was produced. -/
inductive CredSource where
  | ioError (msg : String)
  | jsonError
  | content (j : Json)
deriving Repr

/-- YNABAPI.__setup_ynab: build the headers dict.  IOError, JSONDecodeError
and KeyError from reading the credentials are converted to YNABAPIError
with the documented messages; a TypeError (non-dict credentials or a
non-string prefix/key value) is not caught.  Python evaluates
credentials[prefix] + ' ' before looking up credentials[key]. -/
def setup_ynab (credentials_filename : String) (src : CredSource) :
    Except PyError (List (String × String)) :=
  match src with
  | .ioError msg =>
      Except.error (PyError.ynabAPIError ("Unable to open credentials file:\n" ++ msg))
  | .jsonError =>
      Except.error (PyError.ynabAPIError
        ("Unable to parse credentials file " ++ credentials_filename))
  | .content credentials =>
      match credentials.getItem "prefix" with
      | Except.error (PyError.keyError k) =>
          Except.error (PyError.ynabAPIError
            ("Expected key " ++ squote ++ k ++ squote
              ++ " not found in credentials file " ++ credentials_filename))
      | Except.error e => Except.error e
      | Except.ok pv =>
          match pv with
          | Json.str ps =>
              match credentials.getItem "key" with
              | Except.error (PyError.keyError k) =>
                  Except.error (PyError.ynabAPIError
                    ("Expected key " ++ squote ++ k ++ squote
                      ++ " not found in credentials file " ++ credentials_filename))
              | Except.error e => Except.error e
              | Except.ok kv =>
                  match kv with
                  | Json.str ks =>
                      Except.ok [("Content-Type", "application/json"),
                                 ("Authorization", ps ++ " " ++ ks)]
                  | _ => Except.error PyError.typeError
          | _ => Except.error PyError.typeError

/-- A budget summary entry, with the two fields the client reads
(budget[name] and budget[id]). -/
structure Budget where
  id : String
  name : String
deriving Repr, DecidableEq

/-- YNABAPI.__get_ynab_budget_id, after the /budgets response has been
decoded: scan the returned budgets in order, store the id of the first
whose name equals the requested one; raise YNABAPIError when none does. -/
def get_ynab_budget_id (budgets : List Budget) (name : String) :
    Except PyError String :=
  match budgets.find? (fun budget => budget.name == name) with
  | some budget => Except.ok budget.id
  | none =>
      Except.error (PyError.ynabAPIError
        ("Budget " ++ squote ++ name ++ squote ++ " not found"))

/-- A category, with the fields the client reads (category[name],
category[id], category[hidden]). -/
structure Category where
  id : String
  name : String
  hidden : Bool
deriving Repr, DecidableEq

/-- A category group, with its id, name, hidden flag and ordered category
list as returned by the /budgets/{id}/categories endpoint. -/
structure CategoryGroup where
  id : String
  name : String
  hidden : Bool
  categories : List Category
deriving Repr, DecidableEq

/-- Python dict assignment d[k] = v on a string-keyed dict kept as an
insertion-ordered association list: an existing key keeps its position and
gets the new value, a new key is appended. -/
def dict_insert (d : List (String × String)) (k v : String) :
    List (String × String) :=
  if d.any (fun p => p.1 == k) then
    d.map (fun p => if p.1 == k then (k, v) else p)
  else
    d ++ [(k, v)]

/-- The keys of a dict modelled as above, in insertion order. -/
def dict_keys (d : List (String × String)) : List String :=
  d.map Prod.fst

/-- YNABAPI.__get_ynab_budget_categories, after the categories response has
been decoded: store the returned category-group list unchanged, and build
the name-to-id dict by iterating groups then categories in returned order
(a later duplicate name overwrites the earlier entry). -/
def get_ynab_budget_categories (rawGroups : List CategoryGroup) :
    List CategoryGroup × List (String × String) :=
  (rawGroups,
    rawGroups.foldl
      (fun d group =>
        group.categories.foldl (fun d category => dict_insert d category.name category.id) d)
      [])

/-- YNABAPI.__remove_hidden_categories: for every stored group, replace its
category list by the filter keeping categories whose hidden flag is false. -/
def remove_hidden_categories (groups : List CategoryGroup) : List CategoryGroup :=
  groups.map (fun group =>
    { group with categories := group.categories.filter (fun x => !x.hidden) })

/-- YNABAPI.__valid_category_group: returns len(group[categories]), used for
its truthiness (nonzero) by the filter below.  The name-based rule excluding
Internal Master Category is commented out in the source and not modelled. -/
def valid_category_group (group : CategoryGroup) : Nat :=
  group.categories.length

/-- YNABAPI.__remove_unused_category_groups: keep the stored groups on which
valid_category_group is truthy. -/
def remove_unused_category_groups (groups : List CategoryGroup) :
    List CategoryGroup :=
  groups.filter (fun group => valid_category_group group != 0)

/-- The state of a fully constructed YNABAPI instance. -/
structure YNABAPI where
  headers : List (String × String)
  budget_id : String
  category_groups : List CategoryGroup
  category_ids : List (String × String)
deriving Repr, DecidableEq

/-- YNABAPI.__init__ over the decoded inputs it consumes: the credentials
source, the decoded /budgets response and the decoded categories response.
The steps run in the source's order: setup, budget-id resolution, category
fetch and index construction, hidden-category removal, empty-group removal.
Any failure aborts construction. -/
def YNABAPI.init (credentials_filename : String) (src : CredSource)
    (budgets : List Budget) (rawGroups : List CategoryGroup) :
    Except PyError YNABAPI :=
  match setup_ynab credentials_filename src with
  | Except.error e => Except.error e
  | Except.ok headers =>
      match get_ynab_budget_id budgets "My Budget" with
      | Except.error e => Except.error e
      | Except.ok budget_id =>
          let fetched := get_ynab_budget_categories rawGroups
          let groups1 := remove_hidden_categories fetched.1
          let groups2 := remove_unused_category_groups groups1
          Except.ok ⟨headers, budget_id, groups2, fetched.2⟩

/-- A well-formed credentials source, as in the spec's example scenario. -/
def exCred : CredSource :=
  CredSource.content (Json.obj [("prefix", Json.str "Bearer"), ("key", Json.str "abc")])

/-- The spec's example budgets response: one budget named My Budget. -/
def exBudgets : List Budget := [⟨"B1", "My Budget"⟩]

/-- The spec's example categories response: a Bills group with a visible and
a hidden category, and an Unused group whose only category is hidden. -/
def exRaw : List CategoryGroup :=
  [⟨"g1", "Bills", false, [⟨"c1", "Rent", false⟩, ⟨"c2", "OldCard", true⟩]⟩,
   ⟨"g2", "Unused", false, [⟨"c3", "X", true⟩]⟩]

/-- The client state the model produces from exCred, exBudgets and exRaw. -/
def exApi : YNABAPI :=
  ⟨[("Content-Type", "application/json"), ("Authorization", "Bearer abc")],
   "B1",
   [⟨"g1", "Bills", false, [⟨"c1", "Rent", false⟩]⟩],
   [("Rent", "c1"), ("OldCard", "c2"), ("X", "c3")]⟩

/-- A well-formed API error body. -/
def exErrBody : Json :=
  Json.obj [("error", Json.obj [("name", Json.str "not_found"),
                                ("detail", Json.str "resource not found")])]

theorem mem_dict_keys_insert (d : List (String × String)) (k v a : String) :
    a ∈ dict_keys (dict_insert d k v) ↔ a ∈ dict_keys d ∨ a = k := by
  by_cases h : d.any (fun p => p.1 == k)
  · obtain ⟨p0, hp0, hp0k⟩ := List.any_eq_true.mp h
    rw [beq_iff_eq] at hp0k
    simp only [dict_insert, h, if_true, dict_keys, List.map_map, List.mem_map,
      Function.comp]
    constructor
    · rintro ⟨p, hp, rfl⟩
      by_cases hpk : p.1 = k
      · right; simp [hpk]
      · left; exact ⟨p, hp, by simp [hpk]⟩
    · rintro (⟨p, hp, rfl⟩ | rfl)
      · by_cases hpk : p.1 = k
        · exact ⟨p, hp, by simp [hpk]⟩
        · exact ⟨p, hp, by simp [hpk]⟩
      · exact ⟨p0, hp0, by simp [hp0k]⟩
  · simp [dict_insert, h, dict_keys]

theorem mem_dict_keys_fold_cats (cats : List Category) (d : List (String × String))
    (a : String) :
    a ∈ dict_keys (cats.foldl (fun d c => dict_insert d c.name c.id) d) ↔
      a ∈ dict_keys d ∨ ∃ c ∈ cats, c.name = a := by
  induction cats generalizing d with
  | nil => simp
  | cons c cs ih =>
      simp only [List.foldl_cons]
      rw [ih, mem_dict_keys_insert]
      simp only [List.mem_cons]
      constructor
      · rintro ((ha | rfl) | ⟨x, hx, rfl⟩)
        · exact Or.inl ha
        · exact Or.inr ⟨c, Or.inl rfl, rfl⟩
        · exact Or.inr ⟨x, Or.inr hx, rfl⟩
      · rintro (ha | ⟨x, (rfl | hx), rfl⟩)
        · exact Or.inl (Or.inl ha)
        · exact Or.inl (Or.inr rfl)
        · exact Or.inr ⟨x, hx, rfl⟩

theorem mem_dict_keys_build (groups : List CategoryGroup) (d : List (String × String))
    (a : String) :
    a ∈ dict_keys (groups.foldl
        (fun d group =>
          group.categories.foldl (fun d category => dict_insert d category.name category.id) d)
        d) ↔
      a ∈ dict_keys d ∨ ∃ g ∈ groups, ∃ c ∈ g.categories, c.name = a := by
  induction groups generalizing d with
  | nil => simp
  | cons g gs ih =>
      simp only [List.foldl_cons]
      rw [ih, mem_dict_keys_fold_cats]
      simp only [List.mem_cons]
      constructor
      · rintro ((ha | ⟨c, hc, rfl⟩) | ⟨x, hx, hcx⟩)
        · exact Or.inl ha
        · exact Or.inr ⟨g, Or.inl rfl, c, hc, rfl⟩
        · exact Or.inr ⟨x, Or.inr hx, hcx⟩
      · rintro (ha | ⟨x, (rfl | hx), hcx⟩)
        · exact Or.inl (Or.inl ha)
        · exact Or.inl (Or.inr hcx)
        · exact Or.inr ⟨x, hx, hcx⟩

theorem init_ok_components {fn : String} {src : CredSource} {budgets : List Budget}
    {rawGroups : List CategoryGroup} {api : YNABAPI}
    (h : YNABAPI.init fn src budgets rawGroups = Except.ok api) :
    api.category_groups =
      remove_unused_category_groups (remove_hidden_categories rawGroups) ∧
    api.category_ids = (get_ynab_budget_categories rawGroups).2 := by
  unfold YNABAPI.init at h
  cases hs : setup_ynab fn src with
  | error e => rw [hs] at h; simp at h
  | ok headers =>
      rw [hs] at h
      cases hb : get_ynab_budget_id budgets "My Budget" with
      | error e => rw [hb] at h; simp at h
      | ok budget_id =>
          rw [hb] at h
          simp only [Except.ok.injEq] at h
          rw [← h]
          exact ⟨rfl, rfl⟩

theorem mem_cleaned {rawGroups : List CategoryGroup} {g' : CategoryGroup}
    (h : g' ∈ remove_unused_category_groups (remove_hidden_categories rawGroups)) :
    (∃ g ∈ rawGroups,
        g' = { g with categories := g.categories.filter (fun x => !x.hidden) }) ∧
    g'.categories ≠ [] := by
  unfold remove_unused_category_groups at h
  rw [List.mem_filter] at h
  obtain ⟨hmem, hval⟩ := h
  unfold remove_hidden_categories at hmem
  rw [List.mem_map] at hmem
  obtain ⟨g, hg, rfl⟩ := hmem
  refine ⟨⟨g, hg, rfl⟩, ?_⟩
  unfold valid_category_group at hval
  simp only [bne_iff_ne, ne_eq, List.length_eq_zero] at hval
  exact hval

/-- Claim C1, as stated, is false: the category_ids index is built by
__get_ynab_budget_categories BEFORE __remove_hidden_categories runs, so after
a successful construction it also holds entries for categories removed as
hidden.  Concretely, with the spec's own example data (all category names
unique), the key OldCard is present in category_ids although no retained
category bears that name. -/
theorem category_ids_contains_hidden_name :
    YNABAPI.init "cred.json" exCred exBudgets exRaw = Except.ok exApi ∧
    ((exRaw.flatMap fun g => g.categories).map Category.name).Nodup ∧
    "OldCard" ∈ dict_keys exApi.category_ids ∧
    exApi.category_groups.all
      (fun g => g.categories.all (fun c => c.name != "OldCard")) = true :=
  ⟨rfl, by decide, by decide, by decide⟩

/-- Claim C1 (amended): after construction the keys of category_ids are
exactly the names of ALL categories of the fetched groups, hidden ones
included (the index is built before cleanup); in particular every category
name remaining after cleanup has an entry, but names of removed hidden
categories have entries too. -/
theorem category_ids_keys_are_all_fetched_names (rawGroups : List CategoryGroup) :
    (∀ a, a ∈ dict_keys (get_ynab_budget_categories rawGroups).2 ↔
        ∃ g ∈ rawGroups, ∃ c ∈ g.categories, c.name = a) ∧
    (∀ fn src budgets api, YNABAPI.init fn src budgets rawGroups = Except.ok api →
        (∀ a, a ∈ dict_keys api.category_ids ↔
            ∃ g ∈ rawGroups, ∃ c ∈ g.categories, c.name = a) ∧
        ∀ g ∈ api.category_groups, ∀ c ∈ g.categories,
          c.name ∈ dict_keys api.category_ids) := by
  have hkeys : ∀ a, a ∈ dict_keys (get_ynab_budget_categories rawGroups).2 ↔
      ∃ g ∈ rawGroups, ∃ c ∈ g.categories, c.name = a := by
    intro a
    unfold get_ynab_budget_categories
    rw [mem_dict_keys_build]
    simp [dict_keys]
  refine ⟨hkeys, ?_⟩
  intro fn src budgets api h
  obtain ⟨hgroups, hids⟩ := init_ok_components h
  rw [hids]
  refine ⟨hkeys, ?_⟩
  intro g hg c hc
  rw [hgroups] at hg
  obtain ⟨⟨g0, hg0, rfl⟩, -⟩ := mem_cleaned hg
  have hc0 : c ∈ g0.categories := (List.mem_filter.mp hc).1
  exact (hkeys c.name).mpr ⟨g0, hg0, c, hc0, rfl⟩

/-- Claim C1 witness: on the example data, the theorem yields that the
retained category Rent has an entry in category_ids. -/
theorem category_ids_keys_are_all_fetched_names_witness :
    "Rent" ∈ dict_keys exApi.category_ids :=
  ((category_ids_keys_are_all_fetched_names exRaw).2 "cred.json" exCred exBudgets
      exApi rfl).2
    ⟨"g1", "Bills", false, [⟨"c1", "Rent", false⟩]⟩ (by decide)
    ⟨"c1", "Rent", false⟩ (by decide)

/-- Claim C2: after construction completes successfully, category_groups
contains no group with an empty categories list, and no category of any
retained group has its hidden flag set. -/
theorem category_groups_cleanup_invariant (fn : String) (src : CredSource)
    (budgets : List Budget) (rawGroups : List CategoryGroup) (api : YNABAPI)
    (h : YNABAPI.init fn src budgets rawGroups = Except.ok api) :
    (∀ g ∈ api.category_groups, g.categories ≠ []) ∧
    (∀ g ∈ api.category_groups, ∀ c ∈ g.categories, c.hidden = false) := by
  obtain ⟨hgroups, -⟩ := init_ok_components h
  rw [hgroups]
  constructor
  · intro g hg
    exact (mem_cleaned hg).2
  · intro g hg c hc
    obtain ⟨⟨g0, hg0, rfl⟩, -⟩ := mem_cleaned hg
    have := (List.mem_filter.mp hc).2
    simpa using this

/-- Claim C2 witness: the invariant instantiated on the example data. -/
theorem category_groups_cleanup_invariant_witness :
    (∀ g ∈ exApi.category_groups, g.categories ≠ []) ∧
    (∀ g ∈ exApi.category_groups, ∀ c ∈ g.categories, c.hidden = false) :=
  category_groups_cleanup_invariant "cred.json" exCred exBudgets exRaw exApi rfl

/-- Claim C3, as stated, fails on the code: requests' ok predicate is
status_code < 400, so a non-success (non-2xx) status in the 3xx range with a
well-formed error body does not raise the client error - check_api_result
returns the parsed body.  Concretely at status 304 the get primitive
returns the error body instead of raising. -/
theorem redirect_status_returns_body_not_error :
    (304 < 200 ∨ 300 ≤ 304) ∧
    check_api_result ⟨304, some exErrBody⟩ = Except.ok exErrBody ∧
    (api_get "/budgets" (TransportOutcome.response ⟨304, some exErrBody⟩)).2 =
      Except.ok exErrBody :=
  ⟨Or.inr (by decide), rfl, rfl⟩

/-- Claim C3 (amended): for get and patch calls whose transport succeeds, the
uniform client error with message
"Request Error: <status_code> <error.name>:<error.detail>" is raised exactly
for statuses the transport deems not ok, i.e. 400 and above (not for every
non-2xx status), when the body parses as JSON with an error object carrying
name and detail. -/
theorem request_error_message_format (status : Nat) (url : String)
    (payload data err : Json) (ename edetail : String)
    (h400 : 400 ≤ status)
    (he : data.getItem "error" = Except.ok err)
    (hn : err.getItem "name" = Except.ok (Json.str ename))
    (hd : err.getItem "detail" = Except.ok (Json.str edetail)) :
    check_api_result ⟨status, some data⟩ =
      Except.error (PyError.ynabAPIError
        ("Request Error: " ++ toString status ++ " " ++ ename ++ ":" ++ edetail)) ∧
    (api_get url (TransportOutcome.response ⟨status, some data⟩)).2 =
      Except.error (PyError.ynabAPIError
        ("Request Error: " ++ toString status ++ " " ++ ename ++ ":" ++ edetail)) ∧
    (api_patch url payload (TransportOutcome.response ⟨status, some data⟩)).2 =
      Except.error (PyError.ynabAPIError
        ("Request Error: " ++ toString status ++ " " ++ ename ++ ":" ++ edetail)) := by
  have hok : (⟨status, some data⟩ : Response).ok = false := by
    simp only [Response.ok]
    simp only [decide_eq_false_iff_not]
    omega
  have hcheck : check_api_result ⟨status, some data⟩ =
      Except.error (PyError.ynabAPIError
        ("Request Error: " ++ toString status ++ " " ++ ename ++ ":" ++ edetail)) := by
    simp [check_api_result, hok, he, hn, hd, Json.pyStr]
  exact ⟨hcheck, by simp [api_get, hcheck], by simp [api_patch, hcheck]⟩

/-- Claim C3 witness: a 404 with the example error body produces the exact
formatted message through check_api_result. -/
theorem request_error_message_format_witness :
    check_api_result ⟨404, some exErrBody⟩ =
      Except.error (PyError.ynabAPIError
        ("Request Error: " ++ toString 404 ++ " " ++ "not_found" ++ ":"
          ++ "resource not found")) :=
  (request_error_message_format 404 "/budgets" Json.null exErrBody
      (Json.obj [("name", Json.str "not_found"),
                 ("detail", Json.str "resource not found")])
      "not_found" "resource not found" (by decide) rfl rfl rfl).1

/-- Claim C4: a group is retained by the group-retention step solely by
having a non-empty category list: __valid_category_group depends only on the
categories field (no name-based rule), __remove_unused_category_groups is the
filter keeping non-empty groups, and after a successful construction every
group whose categories were all hidden is absent from category_groups (both
the original group and its stripped-down form). -/
theorem remove_unused_keeps_exactly_nonempty (rawGroups : List CategoryGroup) :
    (∀ g1 g2 : CategoryGroup, g1.categories = g2.categories →
        valid_category_group g1 = valid_category_group g2) ∧
    (∀ groups : List CategoryGroup, remove_unused_category_groups groups =
        groups.filter (fun g => !g.categories.isEmpty)) ∧
    (∀ fn src budgets api, YNABAPI.init fn src budgets rawGroups = Except.ok api →
        ∀ g ∈ rawGroups, (∀ c ∈ g.categories, c.hidden = true) →
          g ∉ api.category_groups ∧
          { g with categories := g.categories.filter (fun x => !x.hidden) } ∉
            api.category_groups) := by
  refine ⟨?_, ?_, ?_⟩
  · intro g1 g2 hcats
    unfold valid_category_group
    rw [hcats]
  · intro groups
    unfold remove_unused_category_groups
    apply List.filter_congr
    intro g _
    cases hg : g.categories <;> simp [valid_category_group, hg]
  · intro fn src budgets api h g hg hall
    obtain ⟨hgroups, -⟩ := init_ok_components h
    rw [hgroups]
    constructor
    · intro hmem
      obtain ⟨⟨g0, hg0, hEq⟩, hne⟩ := mem_cleaned hmem
      cases hcats : g.categories with
      | nil => exact hne hcats
      | cons c cs =>
          have hcmem : c ∈ g.categories := by
            rw [hcats]; exact List.mem_cons_self c cs
          have h1 : c.hidden = true := hall c hcmem
          have hcmem' : c ∈ g0.categories.filter (fun x => !x.hidden) := by
            rw [hEq] at hcmem; exact hcmem
          have h2 := (List.mem_filter.mp hcmem').2
          rw [h1] at h2
          simp at h2
    · intro hmem
      obtain ⟨-, hne⟩ := mem_cleaned hmem
      apply hne
      show g.categories.filter (fun x => !x.hidden) = []
      rw [List.filter_eq_nil_iff]
      intro c hc
      simp [hall c hc]

/-- Claim C4 witness: on the example data, the all-hidden Unused group is
absent from the constructed state, both as fetched and in stripped form. -/
theorem remove_unused_keeps_exactly_nonempty_witness :
    (⟨"g2", "Unused", false, [⟨"c3", "X", true⟩]⟩ : CategoryGroup) ∉
      exApi.category_groups ∧
    (⟨"g2", "Unused", false, []⟩ : CategoryGroup) ∉ exApi.category_groups :=
  (remove_unused_keeps_exactly_nonempty exRaw).2.2 "cred.json" exCred exBudgets
    exApi rfl ⟨"g2", "Unused", false, [⟨"c3", "X", true⟩]⟩ (by decide) (by decide)

/-- Claim C5: the hidden-category removal step gives every group exactly the
ordered subsequence of its categories whose hidden flag is false, and any
group with at least one non-hidden category is still present after a
successful construction, carrying exactly that ordered subset. -/
theorem remove_hidden_preserves_order_subset (rawGroups : List CategoryGroup) :
    (remove_hidden_categories rawGroups = rawGroups.map
        (fun g => { g with categories := g.categories.filter (fun x => !x.hidden) })) ∧
    (∀ g : CategoryGroup,
        (g.categories.filter (fun x => !x.hidden)).Sublist g.categories ∧
        ∀ c : Category, c ∈ g.categories.filter (fun x => !x.hidden) ↔
          c ∈ g.categories ∧ c.hidden = false) ∧
    (∀ fn src budgets api, YNABAPI.init fn src budgets rawGroups = Except.ok api →
        ∀ g ∈ rawGroups, (∃ c ∈ g.categories, c.hidden = false) →
          { g with categories := g.categories.filter (fun x => !x.hidden) } ∈
            api.category_groups) := by
  refine ⟨rfl, ?_, ?_⟩
  · intro g
    refine ⟨List.filter_sublist _, ?_⟩
    intro c
    rw [List.mem_filter]
    simp
  · rintro fn src budgets api h g hg ⟨c, hc, hch⟩
    obtain ⟨hgroups, -⟩ := init_ok_components h
    rw [hgroups]
    unfold remove_unused_category_groups
    rw [List.mem_filter]
    constructor
    · exact List.mem_map_of_mem _ hg
    · have hcf : c ∈ g.categories.filter (fun x => !x.hidden) :=
        List.mem_filter.mpr ⟨hc, by simp [hch]⟩
      have hne : g.categories.filter (fun x => !x.hidden) ≠ [] :=
        List.ne_nil_of_mem hcf
      simp only [valid_category_group, bne_iff_ne, ne_eq, List.length_eq_zero]
      exact hne

/-- Claim C5 witness: on the example data, the Bills group survives with
exactly its non-hidden category Rent. -/
theorem remove_hidden_preserves_order_subset_witness :
    (⟨"g1", "Bills", false, [⟨"c1", "Rent", false⟩]⟩ : CategoryGroup) ∈
      exApi.category_groups :=
  (remove_hidden_preserves_order_subset exRaw).2.2 "cred.json" exCred exBudgets
    exApi rfl ⟨"g1", "Bills", false, [⟨"c1", "Rent", false⟩, ⟨"c2", "OldCard", true⟩]⟩
    (by decide) ⟨⟨"c1", "Rent", false⟩, by decide, rfl⟩

/-- Claim C6: budget resolution scans the budgets linearly in order and
succeeds with the id of the first exact name match; when no budget carries
the requested name it raises the client error Budget '<name>' not found, and
with no My Budget in the response the constructor never yields a client
state (no budget id is stored). -/
theorem budget_resolution_first_match (budgets : List Budget) (name : String) :
    (∀ l1 b l2, budgets = l1 ++ b :: l2 → b.name = name →
        (∀ b2 ∈ l1, b2.name ≠ name) →
        get_ynab_budget_id budgets name = Except.ok b.id) ∧
    ((∀ b ∈ budgets, b.name ≠ name) →
        get_ynab_budget_id budgets name =
          Except.error (PyError.ynabAPIError
            ("Budget " ++ squote ++ name ++ squote ++ " not found"))) ∧
    ((∀ b ∈ budgets, b.name ≠ "My Budget") →
        ∀ fn src rawGroups api,
          YNABAPI.init fn src budgets rawGroups ≠ Except.ok api) := by
  have p2 : ∀ nm : String, (∀ b ∈ budgets, b.name ≠ nm) →
      get_ynab_budget_id budgets nm =
        Except.error (PyError.ynabAPIError
          ("Budget " ++ squote ++ nm ++ squote ++ " not found")) := by
    intro nm hall
    unfold get_ynab_budget_id
    have hfind : budgets.find? (fun budget => budget.name == nm) = none :=
      List.find?_eq_none.mpr (fun b hb => by simp [hall b hb])
    rw [hfind]
  refine ⟨?_, p2 name, ?_⟩
  · intro l1 b l2 hb hname hl1
    subst hb
    unfold get_ynab_budget_id
    have key : ∀ l0 : List Budget, (∀ b2 ∈ l0, b2.name ≠ name) →
        List.find? (fun budget => budget.name == name) (l0 ++ b :: l2) = some b := by
      intro l0
      induction l0 with
      | nil =>
          intro _
          exact List.find?_cons_of_pos _ (by simp [hname])
      | cons x xs ih =>
          intro hx
          rw [List.cons_append, List.find?_cons_of_neg]
          · exact ih (fun b2 hb2 => hx b2 (List.mem_cons_of_mem x hb2))
          · simp only [beq_iff_eq]
            exact hx x (List.mem_cons_self x xs)
    rw [key l1 hl1]
  · intro hall fn src rawGroups api h
    unfold YNABAPI.init at h
    cases hs : setup_ynab fn src with
    | error e => rw [hs] at h; simp at h
    | ok headers =>
        rw [hs] at h
        rw [p2 "My Budget" hall] at h
        simp at h

/-- Claim C6 witness: the first of two same-named budgets wins, and a list
without the requested name yields the not-found error. -/
theorem budget_resolution_first_match_witness :
    get_ynab_budget_id
        [⟨"B2", "Other"⟩, ⟨"B1", "My Budget"⟩, ⟨"B3", "My Budget"⟩] "My Budget" =
      Except.ok "B1" ∧
    get_ynab_budget_id [⟨"B2", "Other"⟩] "My Budget" =
      Except.error (PyError.ynabAPIError
        ("Budget " ++ squote ++ "My Budget" ++ squote ++ " not found")) :=
  ⟨(budget_resolution_first_match
        [⟨"B2", "Other"⟩, ⟨"B1", "My Budget"⟩, ⟨"B3", "My Budget"⟩] "My Budget").1
      [⟨"B2", "Other"⟩] ⟨"B1", "My Budget"⟩ [⟨"B3", "My Budget"⟩] rfl rfl (by decide),
   (budget_resolution_first_match [⟨"B2", "Other"⟩] "My Budget").2.1 (by decide)⟩

/-- Claim C7: credential loading always fails with the single client error
kind YNABAPIError, whose message depends on the failure: an unreadable file
cites the underlying I/O problem, non-JSON content names the credentials
file path, and a credentials object missing prefix or key names the missing
field (quoted, as Python formats a KeyError) and the file path. -/
theorem setup_ynab_error_messages (fn msg : String) (fields : List (String × Json)) :
    (setup_ynab fn (CredSource.ioError msg) =
        Except.error (PyError.ynabAPIError
          ("Unable to open credentials file:\n" ++ msg))) ∧
    (setup_ynab fn CredSource.jsonError =
        Except.error (PyError.ynabAPIError
          ("Unable to parse credentials file " ++ fn))) ∧
    (List.lookup "prefix" fields = none →
        setup_ynab fn (CredSource.content (Json.obj fields)) =
          Except.error (PyError.ynabAPIError
            ("Expected key " ++ squote ++ "prefix" ++ squote
              ++ " not found in credentials file " ++ fn))) ∧
    (∀ ps, List.lookup "prefix" fields = some (Json.str ps) →
        List.lookup "key" fields = none →
        setup_ynab fn (CredSource.content (Json.obj fields)) =
          Except.error (PyError.ynabAPIError
            ("Expected key " ++ squote ++ "key" ++ squote
              ++ " not found in credentials file " ++ fn))) := by
  refine ⟨rfl, rfl, ?_, ?_⟩
  · intro hp
    simp [setup_ynab, Json.getItem, hp]
  · intro ps hp hk
    simp [setup_ynab, Json.getItem, hp, hk]

/-- Claim C7 witness: a credentials object missing prefix, and one missing
key, produce the exact messages naming the missing field and the path. -/
theorem setup_ynab_error_messages_witness :
    setup_ynab "cred.json" (CredSource.content (Json.obj [("key", Json.str "abc")])) =
      Except.error (PyError.ynabAPIError
        ("Expected key " ++ squote ++ "prefix" ++ squote
          ++ " not found in credentials file " ++ "cred.json")) ∧
    setup_ynab "cred.json"
        (CredSource.content (Json.obj [("prefix", Json.str "Bearer")])) =
      Except.error (PyError.ynabAPIError
        ("Expected key " ++ squote ++ "key" ++ squote
          ++ " not found in credentials file " ++ "cred.json")) :=
  ⟨(setup_ynab_error_messages "cred.json" "" [("key", Json.str "abc")]).2.2.1 rfl,
   (setup_ynab_error_messages "cred.json" "" [("prefix", Json.str "Bearer")]).2.2.2
     "Bearer" rfl rfl⟩

/-- Claim C8: when the transport succeeds and the server responds with a 2xx
status, get and patch return the parsed JSON response body unchanged. -/
theorem api_success_returns_body (status : Nat) (url : String) (payload body : Json)
    (h200 : 200 ≤ status) (h300 : status < 300) :
    check_api_result ⟨status, some body⟩ = Except.ok body ∧
    (api_get url (TransportOutcome.response ⟨status, some body⟩)).2 =
      Except.ok body ∧
    (api_patch url payload (TransportOutcome.response ⟨status, some body⟩)).2 =
      Except.ok body := by
  have hok : (⟨status, some body⟩ : Response).ok = true := by
    simp only [Response.ok, decide_eq_true_eq]
    omega
  have hcheck : check_api_result ⟨status, some body⟩ = Except.ok body := by
    simp [check_api_result, hok]
  exact ⟨hcheck, by simp [api_get, hcheck], by simp [api_patch, hcheck]⟩

/-- Claim C8 witness: a 200 response body comes back unchanged through the
get primitive. -/
theorem api_success_returns_body_witness :
    (api_get "/budgets"
        (TransportOutcome.response ⟨200, some (Json.obj [("data", Json.null)])⟩)).2 =
      Except.ok (Json.obj [("data", Json.null)]) :=
  (api_success_returns_body 200 "/budgets" Json.null (Json.obj [("data", Json.null)])
      (by decide) (by decide)).2.1

/-- Claim C9: when the transport raises a request exception, get and patch
raise the uniform client error wrapping the transport exception's message,
and either way each call attempts exactly one network request (no retry). -/
theorem api_transport_error_no_retry (url msg : String) (payload : Json) :
    api_get url (TransportOutcome.exn msg) =
      ([ API_PREFIX ++ url],
        Except.error (PyError.ynabAPIError ("YNAB API error:\n" ++ msg))) ∧
    api_patch url payload (TransportOutcome.exn msg) =
      ([( API_PREFIX ++ url, payload)],
        Except.error (PyError.ynabAPIError ("YNAB API error:\n" ++ msg))) ∧
    (∀ t, (api_get url t).1.length = 1) ∧
    (∀ t, (api_patch url payload t).1.length = 1) ∧
    (PyError.ynabAPIError ("YNAB API error:\n" ++ msg)).isYNABAPIError = true := by
  refine ⟨rfl, rfl, ?_, ?_, rfl⟩
  · intro t; cases t <;> rfl
  · intro t; cases t <;> rfl

/-- Claim C10: the response body is parsed before the status is inspected, so
a body that is not valid JSON makes get and patch fail with
json.JSONDecodeError - not the uniform client error - at every status,
success statuses included. -/
theorem nonjson_body_raises_non_client_error (status : Nat) (url : String)
    (payload : Json) :
    check_api_result ⟨status, none⟩ = Except.error PyError.jsonDecodeError ∧
    (api_get url (TransportOutcome.response ⟨status, none⟩)).2 =
      Except.error PyError.jsonDecodeError ∧
    (api_patch url payload (TransportOutcome.response ⟨status, none⟩)).2 =
      Except.error PyError.jsonDecodeError ∧
    PyError.jsonDecodeError.isYNABAPIError = false := by
  exact ⟨rfl, rfl, rfl, rfl⟩
